import Mathlib

/-
Verification of the credential lifecycle and authenticated-request dispatch
engine of the wxwork app client (src/wechat/wxwork_app.go).

The embedding models the mutable token state of WxWorkApp (accessToken,
expiredAt), the token refresh (refreshAccessToken), the two dispatch
primitives (fireRequest for JSON bodies, uploadFile for multipart bodies),
and the operation helpers that post-process the decoded envelope
(sendMessage, CreateGroupChat, UpdateGroupChat, GetGroupChat,
sendGroupMessage, UploadMedia, UploadImage).

Time instants are integers (seconds); time.Now().After(t) is the strict
comparison now > t.  The HTTP exchange is external, so each call takes the
outcome of its exchange as a parameter (request construction failure,
network failure, or a response with a status code and the decode outcome of
its JSON body).  A separate small-step interleaving model covers the
double-checked token acquisition of lines 913-925 / 843-855 under
concurrent callers.
-/

namespace ChatApi

/-- Constant WxWorkAppStatusOK (line 46): the ok status of an api call. -/
def WxWorkAppStatusOK : Int := 0

/-- Constant WxWorkCodeAccessTokenExpired (line 49): the token-expired sentinel. -/
def WxWorkCodeAccessTokenExpired : Int := 42001

/-- Mutable token state of struct WxWorkApp (lines 178-186): the cached
access token and its expiry instant.  The immutable credential fields and
the http client are irrelevant to the claims and omitted. -/
structure WxWorkApp where
  accessToken : String
  expiredAt : Int
deriving DecidableEq, Repr

/-- Embeds IsAccessTokenExpired (lines 188-190):
return time.Now().After(r.expiredAt), with now explicit. -/
def IsAccessTokenExpired (r : WxWorkApp) (now : Int) : Bool :=
  decide (now > r.expiredAt)

/-- Embeds the token-usability check of fireRequest line 915 and uploadFile
line 845: r.accessToken == "" || r.IsAccessTokenExpired(). -/
def needsRefresh (r : WxWorkApp) (now : Int) : Bool :=
  decide (r.accessToken = "") || IsAccessTokenExpired r now

/-- Embeds WxWorkAppTokenResp (lines 73-78). -/
structure WxWorkAppTokenResp where
  errCode : Int
  errMessage : String
  accessToken : String
  expiresIn : Int
deriving DecidableEq, Repr

/-- Embeds WxWorkAppMessageResp (lines 80-86). -/
structure WxWorkAppMessageResp where
  errCode : Int
  errMessage : String
  invalidUser : String
  invalidParty : String
  invalidTag : String
deriving DecidableEq, Repr

/-- Embeds WxWorkAppGroupMessageResp (lines 88-91). -/
structure WxWorkAppGroupMessageResp where
  errCode : Int
  errMessage : String
deriving DecidableEq, Repr

/-- Embeds WxWorkAppUploadMediaResp (lines 93-99); created_at is a string
field in the source. -/
structure WxWorkAppUploadMediaResp where
  errCode : Int
  errMessage : String
  mediaType : String
  mediaID : String
  createdAt : String
deriving DecidableEq, Repr

/-- Embeds WxWorkAppUploadImageResp (lines 101-105). -/
structure WxWorkAppUploadImageResp where
  errCode : Int
  errMessage : String
  url : String
deriving DecidableEq, Repr

/-- Embeds WxWorkAppGroup (lines 135-140). -/
structure WxWorkAppGroup where
  chatID : String
  name : String
  owner : String
  userList : List String
deriving DecidableEq, Repr

/-- Embeds WxWorkAppCreateGroupResp (lines 118-122). -/
structure WxWorkAppCreateGroupResp where
  errCode : Int
  errMessage : String
  chatID : String
deriving DecidableEq, Repr

/-- Embeds WxWorkAppUpdateGroupResp (lines 124-127). -/
structure WxWorkAppUpdateGroupResp where
  errCode : Int
  errMessage : String
deriving DecidableEq, Repr

/-- Embeds WxWorkAppGetGroupResp (lines 129-133). -/
structure WxWorkAppGetGroupResp where
  errCode : Int
  errMessage : String
  chatInfo : WxWorkAppGroup
deriving DecidableEq, Repr

/-- Outcome of one HTTP exchange for a request whose decoded body has type
a: http.NewRequest fails, client.Do fails, or a response arrives with a
status code, a status text and (for a 200 body) the decode outcome of its
JSON body into the caller-provided envelope shape. -/
inductive ReqOutcome (a : Type) where
  | newReqErr (msg : String)
  | doErr (msg : String)
  | resp (status : Nat) (statusText : String) (decoded : Except String a)

/-- Embeds refreshAccessToken (lines 750-784).  On any failure the state is
returned unchanged; on a success envelope the token is stored and the
expiry set to now + expires_in seconds (line 781-782). -/
def refreshAccessToken (r : WxWorkApp) (now : Int)
    (tokenEndpoint : ReqOutcome WxWorkAppTokenResp) : WxWorkApp × Option String :=
  match tokenEndpoint with
  | .newReqErr m => (r, some ("create request error, " ++ m))
  | .doErr m => (r, some ("get response error, " ++ m))
  | .resp status statusText decoded =>
    if status ≠ 200 then
      (r, some ("wxwork request error, " ++ statusText))
    else
      match decoded with
      | .error m => (r, some ("parse response error, " ++ m))
      | .ok tok =>
        if tok.errCode ≠ WxWorkAppStatusOK then
          (r, some ("call wxwork app api error, " ++ toString tok.errCode ++ " " ++ tok.errMessage))
        else
          ({ accessToken := tok.accessToken, expiredAt := now + tok.expiresIn }, none)

/-- Result of one dispatch: the token state after the call, the number of
network calls made to the token endpoint during the call, and either the
decoded envelope or the error returned. -/
structure FireResult (a : Type) where
  state : WxWorkApp
  refreshCalls : Nat
  result : Except String a

/-- Embeds fireRequest (lines 913-966).  Lines 915-925 are the
double-checked token acquisition; in this sequential model both checks read
the same state (the interleaved version is acqStep below).  Line 938
discards the json.Marshal error (reqBody, _ := json.Marshal(...)), so the
marshalErr parameter is accepted and never consulted. -/
def fireRequest {a : Type} (r : WxWorkApp) (now : Int)
    (tokenEndpoint : ReqOutcome WxWorkAppTokenResp)
    (marshalErr : Option String) (o : ReqOutcome a) : FireResult a :=
  let acq : WxWorkApp × Nat × Option String :=
    if needsRefresh r now then
      -- r.tokenRefreshLock.Lock()
      if needsRefresh r now then
        let res := refreshAccessToken r now tokenEndpoint
        -- r.tokenRefreshLock.Unlock()
        (res.1, 1, res.2.map fun e => "refresh access token error, " ++ e)
      else (r, 0, none)
    else (r, 0, none)
  match acq with
  | (r2, n, some e) => ⟨r2, n, .error e⟩
  | (r2, n, none) =>
    -- reqBody, _ := json.Marshal(reqBodyObject): marshalErr is dropped here
    match marshalErr, o with
    | _, .newReqErr m => ⟨r2, n, .error ("create request error, " ++ m)⟩
    | _, .doErr m => ⟨r2, n, .error ("get response error, " ++ m)⟩
    | _, .resp status statusText decoded =>
      if status ≠ 200 then ⟨r2, n, .error ("wxwork request error, " ++ statusText)⟩
      else
        match decoded with
        | .error m => ⟨r2, n, .error ("parse response error, " ++ m)⟩
        | .ok env => ⟨r2, n, .ok env⟩

/-- Outcome of building the single-field multipart body in uploadFile
(lines 867-883): CreateFormFile, Write or Close may fail. -/
inductive MultipartOutcome where
  | createErr (msg : String)
  | writeErr (msg : String)
  | closeErr (msg : String)
  | ok
deriving DecidableEq, Repr

/-- Embeds uploadFile (lines 843-911): same token acquisition as
fireRequest, then the multipart body construction, then the exchange.  The
non-200 status message here is "wxwork app request error, " (line 900). -/
def uploadFile {a : Type} (r : WxWorkApp) (now : Int)
    (tokenEndpoint : ReqOutcome WxWorkAppTokenResp)
    (mp : MultipartOutcome) (o : ReqOutcome a) : FireResult a :=
  let acq : WxWorkApp × Nat × Option String :=
    if needsRefresh r now then
      -- r.tokenRefreshLock.Lock()
      if needsRefresh r now then
        let res := refreshAccessToken r now tokenEndpoint
        -- r.tokenRefreshLock.Unlock()
        (res.1, 1, res.2.map fun e => "refresh access token error, " ++ e)
      else (r, 0, none)
    else (r, 0, none)
  match acq with
  | (r2, n, some e) => ⟨r2, n, .error e⟩
  | (r2, n, none) =>
    match mp with
    | .createErr m => ⟨r2, n, .error ("create form file error, " ++ m)⟩
    | .writeErr m => ⟨r2, n, .error ("write form file error, " ++ m)⟩
    | .closeErr m => ⟨r2, n, .error ("close form file error, " ++ m)⟩
    | .ok =>
      match o with
      | .newReqErr m => ⟨r2, n, .error ("create request error, " ++ m)⟩
      | .doErr m => ⟨r2, n, .error ("get response error, " ++ m)⟩
      | .resp status statusText decoded =>
        if status ≠ 200 then ⟨r2, n, .error ("wxwork app request error, " ++ statusText)⟩
        else
          match decoded with
          | .error m => ⟨r2, n, .error ("parse response error, " ++ m)⟩
          | .ok env => ⟨r2, n, .ok env⟩

/-- Result of sendMessage (lines 543-557): the token state after the call,
the token-endpoint call count, the decoded envelope (the zero value when
fireRequest failed, mirroring the named return), and the error. -/
structure SendMessageOut where
  state : WxWorkApp
  refreshCalls : Nat
  messageResp : WxWorkAppMessageResp
  err : Option String
deriving DecidableEq, Repr

/-- Zero value of WxWorkAppMessageResp, as left by a failed fireRequest. -/
def WxWorkAppMessageResp.zero : WxWorkAppMessageResp := ⟨0, "", "", "", ""⟩

/-- Embeds sendMessage (lines 543-557): dispatch through fireRequest, then
on a non-ok envelope clear the cached token when the code is the
token-expired sentinel and return the descriptive error. -/
def sendMessage (r : WxWorkApp) (now : Int)
    (tokenEndpoint : ReqOutcome WxWorkAppTokenResp) (marshalErr : Option String)
    (o : ReqOutcome WxWorkAppMessageResp) : SendMessageOut :=
  let fr := fireRequest r now tokenEndpoint marshalErr o
  match fr.result with
  | .error e => ⟨fr.state, fr.refreshCalls, .zero, some e⟩
  | .ok resp =>
    if resp.errCode ≠ WxWorkAppStatusOK then
      let st := if resp.errCode = WxWorkCodeAccessTokenExpired
        then { fr.state with accessToken := "" } else fr.state
      ⟨st, fr.refreshCalls, resp,
        some ("call wxwork app message api error, " ++ toString resp.errCode ++ " " ++ resp.errMessage)⟩
    else ⟨fr.state, fr.refreshCalls, resp, none⟩

/-- Result of CreateGroupChat (lines 560-583). -/
structure CreateGroupOut where
  state : WxWorkApp
  refreshCalls : Nat
  newChatID : String
  err : Option String
deriving DecidableEq, Repr

/-- Embeds CreateGroupChat (lines 560-583). -/
def CreateGroupChat (r : WxWorkApp) (now : Int)
    (tokenEndpoint : ReqOutcome WxWorkAppTokenResp) (marshalErr : Option String)
    (o : ReqOutcome WxWorkAppCreateGroupResp) : CreateGroupOut :=
  let fr := fireRequest r now tokenEndpoint marshalErr o
  match fr.result with
  | .error e => ⟨fr.state, fr.refreshCalls, "", some e⟩
  | .ok resp =>
    if resp.errCode ≠ WxWorkAppStatusOK then
      let st := if resp.errCode = WxWorkCodeAccessTokenExpired
        then { fr.state with accessToken := "" } else fr.state
      ⟨st, fr.refreshCalls, "",
        some ("call wxwork app create group api error, " ++ toString resp.errCode ++ " " ++ resp.errMessage)⟩
    else ⟨fr.state, fr.refreshCalls, resp.chatID, none⟩

/-- Result of UpdateGroupChat (lines 585-608). -/
structure UpdateGroupOut where
  state : WxWorkApp
  refreshCalls : Nat
  err : Option String
deriving DecidableEq, Repr

/-- Embeds UpdateGroupChat (lines 585-608). -/
def UpdateGroupChat (r : WxWorkApp) (now : Int)
    (tokenEndpoint : ReqOutcome WxWorkAppTokenResp) (marshalErr : Option String)
    (o : ReqOutcome WxWorkAppUpdateGroupResp) : UpdateGroupOut :=
  let fr := fireRequest r now tokenEndpoint marshalErr o
  match fr.result with
  | .error e => ⟨fr.state, fr.refreshCalls, some e⟩
  | .ok resp =>
    if resp.errCode ≠ WxWorkAppStatusOK then
      let st := if resp.errCode = WxWorkCodeAccessTokenExpired
        then { fr.state with accessToken := "" } else fr.state
      ⟨st, fr.refreshCalls,
        some ("call wxwork app update group api error, " ++ toString resp.errCode ++ " " ++ resp.errMessage)⟩
    else ⟨fr.state, fr.refreshCalls, none⟩

/-- Result of GetGroupChat (lines 610-626); group is the zero value on any
failure, mirroring the named return. -/
structure GetGroupOut where
  state : WxWorkApp
  refreshCalls : Nat
  group : WxWorkAppGroup
  err : Option String
deriving DecidableEq, Repr

/-- Zero value of WxWorkAppGroup, as left by a failed GetGroupChat. -/
def WxWorkAppGroup.zero : WxWorkAppGroup := ⟨"", "", "", []⟩

/-- Embeds GetGroupChat (lines 610-626). -/
def GetGroupChat (r : WxWorkApp) (now : Int)
    (tokenEndpoint : ReqOutcome WxWorkAppTokenResp) (marshalErr : Option String)
    (o : ReqOutcome WxWorkAppGetGroupResp) : GetGroupOut :=
  let fr := fireRequest r now tokenEndpoint marshalErr o
  match fr.result with
  | .error e => ⟨fr.state, fr.refreshCalls, .zero, some e⟩
  | .ok resp =>
    if resp.errCode ≠ WxWorkAppStatusOK then
      let st := if resp.errCode = WxWorkCodeAccessTokenExpired
        then { fr.state with accessToken := "" } else fr.state
      ⟨st, fr.refreshCalls, .zero,
        some ("call wxwork app get group api error, " ++ toString resp.errCode ++ " " ++ resp.errMessage)⟩
    else ⟨fr.state, fr.refreshCalls, resp.chatInfo, none⟩

/-- Result of sendGroupMessage (lines 787-802). -/
structure GroupMessageOut where
  state : WxWorkApp
  refreshCalls : Nat
  err : Option String
deriving DecidableEq, Repr

/-- Embeds sendGroupMessage (lines 787-802). -/
def sendGroupMessage (r : WxWorkApp) (now : Int)
    (tokenEndpoint : ReqOutcome WxWorkAppTokenResp) (marshalErr : Option String)
    (o : ReqOutcome WxWorkAppGroupMessageResp) : GroupMessageOut :=
  let fr := fireRequest r now tokenEndpoint marshalErr o
  match fr.result with
  | .error e => ⟨fr.state, fr.refreshCalls, some e⟩
  | .ok resp =>
    if resp.errCode ≠ WxWorkAppStatusOK then
      let st := if resp.errCode = WxWorkCodeAccessTokenExpired
        then { fr.state with accessToken := "" } else fr.state
      ⟨st, fr.refreshCalls,
        some ("call wxwork app group message api error, " ++ toString resp.errCode ++ " " ++ resp.errMessage)⟩
    else ⟨fr.state, fr.refreshCalls, none⟩

/-- Accumulates the value of a base-10 digit string; none if a non-digit
character occurs. -/
def digitsToNat : Nat → List Char → Option Nat
  | acc, [] => some acc
  | acc, c :: cs => if c.isDigit then digitsToNat (acc * 10 + (c.toNat - 48)) cs else none

/-- Model of strconv.ParseInt(s, 10, 64), called at line 820: returns the
value and whether an error occurred.  On a syntax error the value is 0; on
a range error the value saturates at the int64 bounds; Go returns that pair
and line 820 discards the error component with the blank identifier. -/
def strconvParseInt64 (s : String) : Int × Bool :=
  match s.toList with
  | [] => (0, true)
  | c :: cs =>
    let signDigits : Bool × List Char :=
      if c = Char.ofNat 45 then (true, cs)
      else if c = Char.ofNat 43 then (false, cs) else (false, c :: cs)
    match signDigits.2 with
    | [] => (0, true)
    | d :: ds =>
      match digitsToNat 0 (d :: ds) with
      | none => (0, true)
      | some n =>
        let v : Int := if signDigits.1 then -(n : Int) else (n : Int)
        if v > 9223372036854775807 then (9223372036854775807, true)
        else if v < -9223372036854775808 then (-9223372036854775808, true)
        else (v, false)

/-- Result of UploadMedia (lines 804-822). -/
structure UploadMediaOut where
  state : WxWorkApp
  refreshCalls : Nat
  mediaID : String
  createdAt : Int
  err : Option String
deriving DecidableEq, Repr

/-- Embeds UploadMedia (lines 804-822): dispatch through uploadFile, the
sentinel check, then the field extraction where line 820 parses created_at
and discards the parse error. -/
def UploadMedia (r : WxWorkApp) (now : Int)
    (tokenEndpoint : ReqOutcome WxWorkAppTokenResp) (mp : MultipartOutcome)
    (o : ReqOutcome WxWorkAppUploadMediaResp) : UploadMediaOut :=
  let fr := uploadFile r now tokenEndpoint mp o
  match fr.result with
  | .error e => ⟨fr.state, fr.refreshCalls, "", 0, some e⟩
  | .ok resp =>
    if resp.errCode ≠ WxWorkAppStatusOK then
      let st := if resp.errCode = WxWorkCodeAccessTokenExpired
        then { fr.state with accessToken := "" } else fr.state
      ⟨st, fr.refreshCalls, "", 0,
        some ("call wxwork app upload media api error, " ++ toString resp.errCode ++ " " ++ resp.errMessage)⟩
    else
      -- createdAt, _ = strconv.ParseInt(resp.CreatedAt, 10, 64)
      ⟨fr.state, fr.refreshCalls, resp.mediaID, (strconvParseInt64 resp.createdAt).1, none⟩

/-- Result of UploadImage (lines 824-841). -/
structure UploadImageOut where
  state : WxWorkApp
  refreshCalls : Nat
  imageURL : String
  err : Option String
deriving DecidableEq, Repr

/-- Embeds UploadImage (lines 824-841). -/
def UploadImage (r : WxWorkApp) (now : Int)
    (tokenEndpoint : ReqOutcome WxWorkAppTokenResp) (mp : MultipartOutcome)
    (o : ReqOutcome WxWorkAppUploadImageResp) : UploadImageOut :=
  let fr := uploadFile r now tokenEndpoint mp o
  match fr.result with
  | .error e => ⟨fr.state, fr.refreshCalls, "", some e⟩
  | .ok resp =>
    if resp.errCode ≠ WxWorkAppStatusOK then
      let st := if resp.errCode = WxWorkCodeAccessTokenExpired
        then { fr.state with accessToken := "" } else fr.state
      ⟨st, fr.refreshCalls, "",
        some ("call wxwork app upload image api error, " ++ toString resp.errCode ++ " " ++ resp.errMessage)⟩
    else ⟨fr.state, fr.refreshCalls, resp.url, none⟩

/-- One dispatched request in a sequence: either a JSON-body message send
(sendMessage) or a multipart media upload (UploadMedia), each with the time
it is issued at and the outcomes of its external exchanges. -/
inductive OpCall where
  | msg (now : Int) (tokenEndpoint : ReqOutcome WxWorkAppTokenResp)
      (marshalErr : Option String) (o : ReqOutcome WxWorkAppMessageResp)
  | media (now : Int) (tokenEndpoint : ReqOutcome WxWorkAppTokenResp)
      (mp : MultipartOutcome) (o : ReqOutcome WxWorkAppUploadMediaResp)

/-- Issue time of a call. -/
def OpCall.now : OpCall → Int
  | .msg n _ _ _ => n
  | .media n _ _ _ => n

/-- Executes one call from a token state, returning the new state and the
number of token-endpoint network calls it made. -/
def OpCall.exec (r : WxWorkApp) : OpCall → WxWorkApp × Nat
  | .msg now te m o => let out := sendMessage r now te m o; (out.state, out.refreshCalls)
  | .media now te mp o => let out := UploadMedia r now te mp o; (out.state, out.refreshCalls)

/-- Runs a sequence of calls, threading the token state and summing the
token-endpoint network calls. -/
def runOps : WxWorkApp → List OpCall → WxWorkApp × Nat
  | r, [] => (r, 0)
  | r, c :: cs =>
    let s := c.exec r
    let rest := runOps s.1 cs
    (rest.1, s.2 + rest.2)

/-- Every call of the sequence is issued while the cached token is
non-empty and unexpired at that moment. -/
def usableThroughout : WxWorkApp → List OpCall → Prop
  | _, [] => True
  | r, c :: cs => needsRefresh r c.now = false ∧ usableThroughout (c.exec r).1 cs

/-
Interleaving model of the double-checked token acquisition (fireRequest
lines 913-925, identical in uploadFile lines 843-855) under concurrent
callers.  Each caller thread runs the atomic steps

  pc 0: outer check (r.accessToken == "" || r.IsAccessTokenExpired()),
        read without the lock; if the token is usable, jump to the token
        read, else to the lock acquisition;
  pc 1: tokenRefreshLock.Lock() (no-op while another thread holds it);
  pc 2: inner re-check under the lock; refresh if still not usable
        (refreshAccessToken semantics: on success store the fresh token
        and now + expiresIn, on failure leave the state unchanged; either
        way one network call to the token endpoint);
  pc 3: tokenRefreshLock.Unlock(); a failed refresh returns the wrapped
        error, otherwise continue;
  pc 4: read r.accessToken (line 928) without the lock;
  pc 5: done.

The refresh outcome is fixed for the window (rok: does the refresh
succeed; ftok, fexp: the token and expires_in of the success envelope),
and the clock value now is fixed, modelling calls issued together.
-/

/-- Thread-local state of one concurrent token acquisition. -/
structure AcqThread where
  pc : Nat
  failed : Bool
  result : Option String
deriving DecidableEq, Repr

/-- Shared state: the cached token fields guarded by tokenRefreshLock, the
lock holder, the count of network calls to the token endpoint, and the
per-thread states. -/
structure AcqSystem where
  token : String
  expiredAt : Int
  lockHolder : Option Nat
  refreshCalls : Nat
  threads : Nat → AcqThread

/-- Replaces the state of thread i. -/
def AcqSystem.setThread (s : AcqSystem) (i : Nat) (t : AcqThread) : AcqSystem :=
  { s with threads := fun j => if j = i then t else s.threads j }

/-- One atomic step of thread i of the double-checked acquisition. -/
def acqStep (now : Int) (rok : Bool) (ftok : String) (fexp : Int)
    (s : AcqSystem) (i : Nat) : AcqSystem :=
  if (s.threads i).pc = 0 then
    if needsRefresh ⟨s.token, s.expiredAt⟩ now then
      s.setThread i { s.threads i with pc := 1 }
    else s.setThread i { s.threads i with pc := 4 }
  else if (s.threads i).pc = 1 then
    match s.lockHolder with
    | none => { s.setThread i { s.threads i with pc := 2 } with lockHolder := some i }
    | some _ => s
  else if (s.threads i).pc = 2 then
    if needsRefresh ⟨s.token, s.expiredAt⟩ now then
      if rok then
        { s.setThread i { s.threads i with pc := 3 } with
            token := ftok, expiredAt := now + fexp, refreshCalls := s.refreshCalls + 1 }
      else
        { s.setThread i { s.threads i with pc := 3, failed := true } with
            refreshCalls := s.refreshCalls + 1 }
    else s.setThread i { s.threads i with pc := 3 }
  else if (s.threads i).pc = 3 then
    if (s.threads i).failed then
      { s.setThread i { s.threads i with pc := 5 } with lockHolder := none }
    else { s.setThread i { s.threads i with pc := 4 } with lockHolder := none }
  else if (s.threads i).pc = 4 then
    s.setThread i { s.threads i with pc := 5, result := some s.token }
  else s

/-- Runs a schedule: each entry names the thread that takes the next step. -/
def acqRun (now : Int) (rok : Bool) (ftok : String) (fexp : Int) :
    AcqSystem → List Nat → AcqSystem
  | s, [] => s
  | s, i :: rest => acqRun now rok ftok fexp (acqStep now rok ftok fexp s i) rest

/-- Initial state of an acquisition window opened while the cached token is
absent: every thread at its outer check, the lock free, no refresh yet. -/
def acqInit (expiredAt0 : Int) : AcqSystem :=
  { token := "", expiredAt := expiredAt0, lockHolder := none, refreshCalls := 0,
    threads := fun _ => { pc := 0, failed := false, result := none } }

/-
Helper lemmas shared by several theorems.
-/

theorem fireRequest_refresh_count {a : Type} (r : WxWorkApp) (now : Int)
    (te : ReqOutcome WxWorkAppTokenResp) (m : Option String) (o : ReqOutcome a) :
    (fireRequest r now te m o).refreshCalls = if needsRefresh r now then 1 else 0 := by
  by_cases h : needsRefresh r now
  · simp only [fireRequest, h, if_true]
    rcases hre : refreshAccessToken r now te with ⟨r2, err⟩
    cases err with
    | none =>
      cases o with
      | newReqErr m2 => simp [hre]
      | doErr m2 => simp [hre]
      | resp st stext2 dec =>
        by_cases hs : st ≠ 200
        · simp [hre, hs]
        · cases dec <;> simp [hre, hs]
    | some e => simp [hre]
  · simp only [fireRequest, h, if_false, Bool.false_eq_true]
    cases o with
    | newReqErr m2 => simp
    | doErr m2 => simp
    | resp st stext2 dec =>
      by_cases hs : st ≠ 200
      · simp [hs]
      · cases dec <;> simp [hs]

theorem uploadFile_refresh_count {a : Type} (r : WxWorkApp) (now : Int)
    (te : ReqOutcome WxWorkAppTokenResp) (mp : MultipartOutcome) (o : ReqOutcome a) :
    (uploadFile r now te mp o).refreshCalls = if needsRefresh r now then 1 else 0 := by
  by_cases h : needsRefresh r now
  · simp only [uploadFile, h, if_true]
    rcases hre : refreshAccessToken r now te with ⟨r2, err⟩
    cases err with
    | none =>
      cases mp with
      | createErr m2 => simp [hre]
      | writeErr m2 => simp [hre]
      | closeErr m2 => simp [hre]
      | ok =>
        cases o with
        | newReqErr m2 => simp [hre]
        | doErr m2 => simp [hre]
        | resp st stext2 dec =>
          by_cases hs : st ≠ 200
          · simp [hre, hs]
          · cases dec <;> simp [hre, hs]
    | some e => simp [hre]
  · simp only [uploadFile, h, if_false, Bool.false_eq_true]
    cases mp with
    | createErr m2 => simp
    | writeErr m2 => simp
    | closeErr m2 => simp
    | ok =>
      cases o with
      | newReqErr m2 => simp
      | doErr m2 => simp
      | resp st stext2 dec =>
        by_cases hs : st ≠ 200
        · simp [hs]
        · cases dec <;> simp [hs]

theorem fireRequest_usable_state {a : Type} (r : WxWorkApp) (now : Int)
    (te : ReqOutcome WxWorkAppTokenResp) (m : Option String) (o : ReqOutcome a)
    (h : needsRefresh r now = false) :
    (fireRequest r now te m o).state = r := by
  simp only [fireRequest, h, if_false, Bool.false_eq_true]
  cases o with
  | newReqErr m2 => simp
  | doErr m2 => simp
  | resp st stext2 dec =>
    by_cases hs : st ≠ 200
    · simp [hs]
    · cases dec <;> simp [hs]

theorem uploadFile_usable_state {a : Type} (r : WxWorkApp) (now : Int)
    (te : ReqOutcome WxWorkAppTokenResp) (mp : MultipartOutcome) (o : ReqOutcome a)
    (h : needsRefresh r now = false) :
    (uploadFile r now te mp o).state = r := by
  simp only [uploadFile, h, if_false, Bool.false_eq_true]
  cases mp with
  | createErr m2 => simp
  | writeErr m2 => simp
  | closeErr m2 => simp
  | ok =>
    cases o with
    | newReqErr m2 => simp
    | doErr m2 => simp
    | resp st stext2 dec =>
      by_cases hs : st ≠ 200
      · simp [hs]
      · cases dec <;> simp [hs]

theorem fireRequest_usable_nok {a : Type} (r : WxWorkApp) (now : Int)
    (te : ReqOutcome WxWorkAppTokenResp) (m : Option String) (st : Nat) (stext : String)
    (dec : Except String a) (h : needsRefresh r now = false) (hs : st ≠ 200) :
    fireRequest r now te m (.resp st stext dec) =
      ⟨r, 0, .error ("wxwork request error, " ++ stext)⟩ := by
  simp [fireRequest, h, hs]

theorem uploadFile_usable_nok {a : Type} (r : WxWorkApp) (now : Int)
    (te : ReqOutcome WxWorkAppTokenResp) (st : Nat) (stext : String)
    (dec : Except String a) (h : needsRefresh r now = false) (hs : st ≠ 200) :
    uploadFile r now te .ok (.resp st stext dec) =
      ⟨r, 0, .error ("wxwork app request error, " ++ stext)⟩ := by
  simp [uploadFile, h, hs]

theorem fireRequest_usable_200 {a : Type} (r : WxWorkApp) (now : Int)
    (te : ReqOutcome WxWorkAppTokenResp) (m : Option String) (stext : String)
    (dec : Except String a) (h : needsRefresh r now = false) :
    fireRequest r now te m (.resp 200 stext dec) =
      ⟨r, 0, match dec with
        | .error pm => .error ("parse response error, " ++ pm)
        | .ok env => .ok env⟩ := by
  cases dec <;> simp [fireRequest, h]

theorem uploadFile_usable_200 {a : Type} (r : WxWorkApp) (now : Int)
    (te : ReqOutcome WxWorkAppTokenResp) (stext : String)
    (dec : Except String a) (h : needsRefresh r now = false) :
    uploadFile r now te .ok (.resp 200 stext dec) =
      ⟨r, 0, match dec with
        | .error pm => .error ("parse response error, " ++ pm)
        | .ok env => .ok env⟩ := by
  cases dec <;> simp [uploadFile, h]

theorem needsRefresh_of_empty (r : WxWorkApp) (now : Int) (h : r.accessToken = "") :
    needsRefresh r now = true := by
  simp [needsRefresh, h]

/-
Theorems.
-/

/-- Spec-side usability predicate, written from the words of claim C1 for
comparison with the source check: a token is usable iff non-empty and the
current time is strictly before the recorded expiry. -/
def usableSpec (r : WxWorkApp) (now : Int) : Bool :=
  decide (r.accessToken ≠ "") && decide (now < r.expiredAt)

/-- C1 counterexample: at exactly the recorded expiry instant the code
still treats the token as usable — IsAccessTokenExpired is false,
needsRefresh is false, and a request issued at that instant performs zero
token refresh calls — while the spec-side predicate calls it unusable, so
the claimed strict-before equivalence and the refresh-at-the-instant
behaviour both fail. -/
theorem c1_counterexample :
    IsAccessTokenExpired ⟨"tok", 100⟩ 100 = false ∧
    needsRefresh ⟨"tok", 100⟩ 100 = false ∧
    usableSpec ⟨"tok", 100⟩ 100 = false ∧
    (fireRequest (a := WxWorkAppMessageResp) ⟨"tok", 100⟩ 100 (.doErr "unused") none
      (.resp 200 "200 OK" (.ok .zero))).refreshCalls = 0 := by
  refine ⟨by decide, by decide, by decide, rfl⟩

/-- C1 (amended): the cached token is considered usable iff it is
non-empty and the current time is less than or equal to the recorded
expiry; at exactly the expiry instant the token is still treated as valid,
and only a request issued strictly after the expiry triggers a refresh. -/
theorem c1_usability_boundary :
    (∀ (r : WxWorkApp) (now : Int),
        needsRefresh r now = false ↔ (r.accessToken ≠ "" ∧ now ≤ r.expiredAt)) ∧
    (∀ r : WxWorkApp, r.accessToken ≠ "" → needsRefresh r r.expiredAt = false) ∧
    (∀ (r : WxWorkApp) (now : Int), r.expiredAt < now → needsRefresh r now = true) := by
  refine ⟨fun r now => ?_, fun r h => ?_, fun r now h => ?_⟩
  · simp [needsRefresh, IsAccessTokenExpired, not_lt]
  · simp [needsRefresh, IsAccessTokenExpired, h]
  · simp [needsRefresh, IsAccessTokenExpired, h]

/-- C1 witness: concrete instances of the boundary behaviour. -/
theorem c1_witness :
    needsRefresh ⟨"tok", 100⟩ 100 = false ∧ needsRefresh ⟨"tok", 100⟩ 101 = true :=
  ⟨c1_usability_boundary.2.1 ⟨"tok", 100⟩ (by decide),
   c1_usability_boundary.2.2 ⟨"tok", 100⟩ 101 (by decide)⟩

/-- C5: a token refresh whose envelope carries a non-zero error code
returns the descriptive error and leaves the cached token and expiry
exactly as they were; consequently a later dispatched request, issued at
any time at which the (unchanged) cache needs a refresh, attempts the
refresh again. -/
theorem c5_refresh_failure_atomic :
    (∀ (r : WxWorkApp) (now : Int) (stext : String) (tok : WxWorkAppTokenResp),
        tok.errCode ≠ WxWorkAppStatusOK →
        refreshAccessToken r now (.resp 200 stext (.ok tok)) =
          (r, some ("call wxwork app api error, " ++ toString tok.errCode ++ " " ++ tok.errMessage))) ∧
    (∀ (r : WxWorkApp) (now now2 : Int) (stext : String) (tok : WxWorkAppTokenResp),
        tok.errCode ≠ WxWorkAppStatusOK →
        needsRefresh (refreshAccessToken r now (.resp 200 stext (.ok tok))).1 now2 =
          needsRefresh r now2) ∧
    (∀ (r : WxWorkApp) (now : Int) (te : ReqOutcome WxWorkAppTokenResp)
        (m : Option String) (o : ReqOutcome WxWorkAppMessageResp),
        needsRefresh r now = true → (fireRequest r now te m o).refreshCalls = 1) := by
  refine ⟨fun r now stext tok h => ?_, fun r now now2 stext tok h => ?_,
    fun r now te m o h => ?_⟩
  · simp [refreshAccessToken, h]
  · simp [refreshAccessToken, h]
  · simp only [fireRequest, h, if_true]
    rcases hre : refreshAccessToken r now te with ⟨r2, err⟩
    cases err with
    | none =>
      cases o with
      | newReqErr m2 => simp [hre]
      | doErr m2 => simp [hre]
      | resp st stext2 dec =>
        by_cases hs : st ≠ 200
        · simp [hre, hs]
        · cases dec <;> simp [hre, hs]
    | some e => simp [hre]

/-- C5 witness: a concrete failed refresh (errcode 40013) leaves the state
unchanged and a concrete absent-token dispatch performs one refresh call. -/
theorem c5_witness :
    refreshAccessToken ⟨"old", 50⟩ 0 (.resp 200 "200 OK" (.ok ⟨40013, "invalid corpid", "", 0⟩)) =
      (⟨"old", 50⟩, some "call wxwork app api error, 40013 invalid corpid") ∧
    (fireRequest (a := WxWorkAppMessageResp) ⟨"", 0⟩ 5 (.doErr "down") none
      (.resp 200 "200 OK" (.ok .zero))).refreshCalls = 1 := by
  refine ⟨?_, ?_⟩
  · have h := c5_refresh_failure_atomic.1 ⟨"old", 50⟩ 0 "200 OK" ⟨40013, "invalid corpid", "", 0⟩
      (by decide)
    simpa using h
  · exact c5_refresh_failure_atomic.2.2 ⟨"", 0⟩ 5 (.doErr "down") none
      (.resp 200 "200 OK" (.ok .zero)) (by decide)

/-- C6: a successful token response stores the returned token and sets the
recorded expiry to the refresh instant plus expires_in seconds, and (for a
non-empty token) the cache reports the token usable at every instant up to
that expiry. -/
theorem c6_refresh_roundtrip :
    (∀ (r : WxWorkApp) (now : Int) (stext : String) (tok : WxWorkAppTokenResp),
        tok.errCode = WxWorkAppStatusOK →
        refreshAccessToken r now (.resp 200 stext (.ok tok)) =
          ({ accessToken := tok.accessToken, expiredAt := now + tok.expiresIn }, none)) ∧
    (∀ (now t : Int) (tok : WxWorkAppTokenResp),
        tok.accessToken ≠ "" → t ≤ now + tok.expiresIn →
        needsRefresh { accessToken := tok.accessToken, expiredAt := now + tok.expiresIn } t
          = false) := by
  refine ⟨fun r now stext tok h => ?_, fun now t tok hne ht => ?_⟩
  · simp [refreshAccessToken, h]
  · simp [needsRefresh, IsAccessTokenExpired, hne, not_lt.mpr ht]

/-- C6 witness: the spec scenario with token "T" and expires_in 7200,
refreshed at instant 0 and still usable at instant 3600. -/
theorem c6_witness :
    refreshAccessToken ⟨"", 0⟩ 0 (.resp 200 "200 OK" (.ok ⟨0, "ok", "T", 7200⟩)) =
      (⟨"T", 7200⟩, none) ∧
    needsRefresh ⟨"T", 7200⟩ 3600 = false := by
  refine ⟨?_, ?_⟩
  · have h := c6_refresh_roundtrip.1 ⟨"", 0⟩ 0 "200 OK" ⟨0, "ok", "T", 7200⟩ (by decide)
    simpa using h
  · have h := c6_refresh_roundtrip.2 0 3600 ⟨0, "ok", "T", 7200⟩ (by decide) (by decide)
    simpa using h

/-- C4 counterexample: a 201 response — a 2xx success status — is not
decoded into the envelope as the claim requires; both dispatch primitives
report it as a transport error even though the body would decode fine. -/
theorem c4_counterexample :
    (fireRequest (a := WxWorkAppMessageResp) ⟨"tok", 100⟩ 0 (.doErr "unused") none
      (.resp 201 "201 Created" (.ok .zero))).result =
      .error "wxwork request error, 201 Created" ∧
    (uploadFile (a := WxWorkAppUploadMediaResp) ⟨"tok", 100⟩ 0 (.doErr "unused") .ok
      (.resp 201 "201 Created" (.ok ⟨0, "ok", "image", "m1", "1"⟩))).result =
      .error "wxwork app request error, 201 Created" := by
  exact ⟨rfl, rfl⟩

/-- C4 (amended): for every dispatched request (JSON or multipart), any
HTTP status other than exactly 200 — including other 2xx statuses — is
reported as a transport error without inspecting the envelope, and only on
status 200 is the JSON body decoded into the caller-provided envelope
shape, a decode failure being reported as a distinct parse error. -/
theorem c4_status_dispatch :
    (∀ (a : Type) (r : WxWorkApp) (now : Int) (te : ReqOutcome WxWorkAppTokenResp)
        (m : Option String) (st : Nat) (stext : String) (dec : Except String a),
        needsRefresh r now = false → st ≠ 200 →
        (fireRequest r now te m (.resp st stext dec)).result =
          .error ("wxwork request error, " ++ stext)) ∧
    (∀ (a : Type) (r : WxWorkApp) (now : Int) (te : ReqOutcome WxWorkAppTokenResp)
        (m : Option String) (stext : String) (pm : String),
        needsRefresh r now = false →
        (fireRequest r now te m
          (.resp 200 stext (Except.error pm : Except String a))).result =
          .error ("parse response error, " ++ pm)) ∧
    (∀ (a : Type) (r : WxWorkApp) (now : Int) (te : ReqOutcome WxWorkAppTokenResp)
        (m : Option String) (stext : String) (env : a),
        needsRefresh r now = false →
        (fireRequest r now te m (.resp 200 stext (.ok env))).result = .ok env) ∧
    (∀ (a : Type) (r : WxWorkApp) (now : Int) (te : ReqOutcome WxWorkAppTokenResp)
        (st : Nat) (stext : String) (dec : Except String a),
        needsRefresh r now = false → st ≠ 200 →
        (uploadFile r now te .ok (.resp st stext dec)).result =
          .error ("wxwork app request error, " ++ stext)) ∧
    (∀ (a : Type) (r : WxWorkApp) (now : Int) (te : ReqOutcome WxWorkAppTokenResp)
        (stext : String) (pm : String),
        needsRefresh r now = false →
        (uploadFile r now te .ok
          (.resp 200 stext (Except.error pm : Except String a))).result =
          .error ("parse response error, " ++ pm)) ∧
    (∀ (a : Type) (r : WxWorkApp) (now : Int) (te : ReqOutcome WxWorkAppTokenResp)
        (stext : String) (env : a),
        needsRefresh r now = false →
        (uploadFile r now te .ok (.resp 200 stext (.ok env))).result = .ok env) := by
  refine ⟨fun a r now te m st stext dec h hs => ?_,
    fun a r now te m stext pm h => ?_, fun a r now te m stext env h => ?_,
    fun a r now te st stext dec h hs => ?_,
    fun a r now te stext pm h => ?_, fun a r now te stext env h => ?_⟩
  · rw [fireRequest_usable_nok r now te m st stext dec h hs]
  · rw [fireRequest_usable_200 r now te m stext _ h]
  · rw [fireRequest_usable_200 r now te m stext _ h]
  · rw [uploadFile_usable_nok r now te st stext dec h hs]
  · rw [uploadFile_usable_200 r now te stext _ h]
  · rw [uploadFile_usable_200 r now te stext _ h]

/-- C4 witness: concrete instances — a 404 transport error, a 200 parse
error, and a decoded 200 envelope. -/
theorem c4_witness :
    (fireRequest (a := WxWorkAppMessageResp) ⟨"tok", 100⟩ 0 (.doErr "unused") none
      (.resp 404 "404 Not Found" (.error "eof"))).result =
      .error "wxwork request error, 404 Not Found" ∧
    (fireRequest (a := WxWorkAppMessageResp) ⟨"tok", 100⟩ 0 (.doErr "unused") none
      (.resp 200 "200 OK" (.error "bad json"))).result =
      .error "parse response error, bad json" ∧
    (uploadFile (a := WxWorkAppUploadImageResp) ⟨"tok", 100⟩ 0 (.doErr "unused") .ok
      (.resp 200 "200 OK" (.ok ⟨0, "ok", "http://u"⟩))).result = .ok ⟨0, "ok", "http://u"⟩ :=
  ⟨c4_status_dispatch.1 WxWorkAppMessageResp ⟨"tok", 100⟩ 0 (.doErr "unused") none
      404 "404 Not Found" (.error "eof") (by decide) (by decide),
   c4_status_dispatch.2.1 WxWorkAppMessageResp ⟨"tok", 100⟩ 0 (.doErr "unused") none
      "200 OK" "bad json" (by decide),
   c4_status_dispatch.2.2.2.2.2 WxWorkAppUploadImageResp ⟨"tok", 100⟩ 0 (.doErr "unused")
      "200 OK" ⟨0, "ok", "http://u"⟩ (by decide)⟩

/-- C7: a non-2xx HTTP status yields a transport error and leaves the
cached token string and expiry unchanged, on the message/media endpoints
(dispatch from a usable token), on the token endpoint itself
(refreshAccessToken), and on the refresh path inside fireRequest. -/
theorem c7_non2xx_frame :
    (∀ (a : Type) (r : WxWorkApp) (now : Int) (te : ReqOutcome WxWorkAppTokenResp)
        (m : Option String) (st : Nat) (stext : String) (dec : Except String a),
        needsRefresh r now = false → (st < 200 ∨ 300 ≤ st) →
        fireRequest r now te m (.resp st stext dec) =
          ⟨r, 0, .error ("wxwork request error, " ++ stext)⟩) ∧
    (∀ (a : Type) (r : WxWorkApp) (now : Int) (te : ReqOutcome WxWorkAppTokenResp)
        (st : Nat) (stext : String) (dec : Except String a),
        needsRefresh r now = false → (st < 200 ∨ 300 ≤ st) →
        uploadFile r now te .ok (.resp st stext dec) =
          ⟨r, 0, .error ("wxwork app request error, " ++ stext)⟩) ∧
    (∀ (r : WxWorkApp) (now : Int) (st : Nat) (stext : String)
        (dec : Except String WxWorkAppTokenResp),
        (st < 200 ∨ 300 ≤ st) →
        refreshAccessToken r now (.resp st stext dec) =
          (r, some ("wxwork request error, " ++ stext))) ∧
    (∀ (a : Type) (r : WxWorkApp) (now : Int) (m : Option String) (o : ReqOutcome a)
        (st : Nat) (stext : String) (dec : Except String WxWorkAppTokenResp),
        needsRefresh r now = true → (st < 200 ∨ 300 ≤ st) →
        fireRequest r now (.resp st stext dec) m o =
          ⟨r, 1, .error ("refresh access token error, wxwork request error, " ++ stext)⟩) := by
  refine ⟨fun a r now te m st stext dec h hs => ?_,
    fun a r now te st stext dec h hs => ?_,
    fun r now st stext dec hs => ?_,
    fun a r now m o st stext dec h hs => ?_⟩
  · exact fireRequest_usable_nok r now te m st stext dec h (by omega)
  · exact uploadFile_usable_nok r now te st stext dec h (by omega)
  · have hne : st ≠ 200 := by omega
    simp [refreshAccessToken, hne]
  · have hne : st ≠ 200 := by omega
    have hre : refreshAccessToken r now (.resp st stext dec) =
        (r, some ("wxwork request error, " ++ stext)) := by
      simp [refreshAccessToken, hne]
    have hcat : "refresh access token error, " ++ "wxwork request error, " =
        "refresh access token error, wxwork request error, " := rfl
    simp [fireRequest, h, hre, ← String.append_assoc, hcat]

/-- C7 witness: a concrete 500 on the message endpoint and a concrete 502
on the token endpoint, both leaving the state as it was. -/
theorem c7_witness :
    fireRequest (a := WxWorkAppMessageResp) ⟨"tok", 100⟩ 0 (.doErr "unused") none
      (.resp 500 "500 Internal Server Error" (.error "eof")) =
      ⟨⟨"tok", 100⟩, 0, .error "wxwork request error, 500 Internal Server Error"⟩ ∧
    fireRequest (a := WxWorkAppMessageResp) ⟨"", 0⟩ 5
      (.resp 502 "502 Bad Gateway" (.error "eof")) none
      (.resp 200 "200 OK" (.ok .zero)) =
      ⟨⟨"", 0⟩, 1, .error "refresh access token error, wxwork request error, 502 Bad Gateway"⟩ :=
  ⟨c7_non2xx_frame.1 WxWorkAppMessageResp ⟨"tok", 100⟩ 0 (.doErr "unused") none
      500 "500 Internal Server Error" (.error "eof") (by decide) (by omega),
   c7_non2xx_frame.2.2.2 WxWorkAppMessageResp ⟨"", 0⟩ 5 none
      (.resp 200 "200 OK" (.ok .zero)) 502 "502 Bad Gateway" (.error "eof")
      (by decide) (by omega)⟩

/-- C2: for every operation — message send, group create, group update,
group get, group send, media upload, image upload — if the exchange yields
a decoded envelope whose error code is the token-expired sentinel 42001,
then the cached token is empty in the returned state, the call returns the
descriptive api error (the sentinel triggers no refresh inside the same
call), and any later dispatch from that state performs a token refresh. -/
theorem c2_sentinel_invalidation :
    (∀ (r : WxWorkApp) (now : Int) (te : ReqOutcome WxWorkAppTokenResp) (m : Option String)
        (o : ReqOutcome WxWorkAppMessageResp) (resp : WxWorkAppMessageResp),
        (fireRequest r now te m o).result = .ok resp →
        resp.errCode = WxWorkCodeAccessTokenExpired →
        (sendMessage r now te m o).state.accessToken = "" ∧
        (sendMessage r now te m o).err = some ("call wxwork app message api error, " ++
          toString resp.errCode ++ " " ++ resp.errMessage) ∧
        ∀ now2 : Int, needsRefresh (sendMessage r now te m o).state now2 = true) ∧
    (∀ (r : WxWorkApp) (now : Int) (te : ReqOutcome WxWorkAppTokenResp) (m : Option String)
        (o : ReqOutcome WxWorkAppCreateGroupResp) (resp : WxWorkAppCreateGroupResp),
        (fireRequest r now te m o).result = .ok resp →
        resp.errCode = WxWorkCodeAccessTokenExpired →
        (CreateGroupChat r now te m o).state.accessToken = "" ∧
        (CreateGroupChat r now te m o).err = some ("call wxwork app create group api error, " ++
          toString resp.errCode ++ " " ++ resp.errMessage) ∧
        ∀ now2 : Int, needsRefresh (CreateGroupChat r now te m o).state now2 = true) ∧
    (∀ (r : WxWorkApp) (now : Int) (te : ReqOutcome WxWorkAppTokenResp) (m : Option String)
        (o : ReqOutcome WxWorkAppUpdateGroupResp) (resp : WxWorkAppUpdateGroupResp),
        (fireRequest r now te m o).result = .ok resp →
        resp.errCode = WxWorkCodeAccessTokenExpired →
        (UpdateGroupChat r now te m o).state.accessToken = "" ∧
        (UpdateGroupChat r now te m o).err = some ("call wxwork app update group api error, " ++
          toString resp.errCode ++ " " ++ resp.errMessage) ∧
        ∀ now2 : Int, needsRefresh (UpdateGroupChat r now te m o).state now2 = true) ∧
    (∀ (r : WxWorkApp) (now : Int) (te : ReqOutcome WxWorkAppTokenResp) (m : Option String)
        (o : ReqOutcome WxWorkAppGetGroupResp) (resp : WxWorkAppGetGroupResp),
        (fireRequest r now te m o).result = .ok resp →
        resp.errCode = WxWorkCodeAccessTokenExpired →
        (GetGroupChat r now te m o).state.accessToken = "" ∧
        (GetGroupChat r now te m o).err = some ("call wxwork app get group api error, " ++
          toString resp.errCode ++ " " ++ resp.errMessage) ∧
        ∀ now2 : Int, needsRefresh (GetGroupChat r now te m o).state now2 = true) ∧
    (∀ (r : WxWorkApp) (now : Int) (te : ReqOutcome WxWorkAppTokenResp) (m : Option String)
        (o : ReqOutcome WxWorkAppGroupMessageResp) (resp : WxWorkAppGroupMessageResp),
        (fireRequest r now te m o).result = .ok resp →
        resp.errCode = WxWorkCodeAccessTokenExpired →
        (sendGroupMessage r now te m o).state.accessToken = "" ∧
        (sendGroupMessage r now te m o).err = some ("call wxwork app group message api error, " ++
          toString resp.errCode ++ " " ++ resp.errMessage) ∧
        ∀ now2 : Int, needsRefresh (sendGroupMessage r now te m o).state now2 = true) ∧
    (∀ (r : WxWorkApp) (now : Int) (te : ReqOutcome WxWorkAppTokenResp) (mp : MultipartOutcome)
        (o : ReqOutcome WxWorkAppUploadMediaResp) (resp : WxWorkAppUploadMediaResp),
        (uploadFile r now te mp o).result = .ok resp →
        resp.errCode = WxWorkCodeAccessTokenExpired →
        (UploadMedia r now te mp o).state.accessToken = "" ∧
        (UploadMedia r now te mp o).err = some ("call wxwork app upload media api error, " ++
          toString resp.errCode ++ " " ++ resp.errMessage) ∧
        ∀ now2 : Int, needsRefresh (UploadMedia r now te mp o).state now2 = true) ∧
    (∀ (r : WxWorkApp) (now : Int) (te : ReqOutcome WxWorkAppTokenResp) (mp : MultipartOutcome)
        (o : ReqOutcome WxWorkAppUploadImageResp) (resp : WxWorkAppUploadImageResp),
        (uploadFile r now te mp o).result = .ok resp →
        resp.errCode = WxWorkCodeAccessTokenExpired →
        (UploadImage r now te mp o).state.accessToken = "" ∧
        (UploadImage r now te mp o).err = some ("call wxwork app upload image api error, " ++
          toString resp.errCode ++ " " ++ resp.errMessage) ∧
        ∀ now2 : Int, needsRefresh (UploadImage r now te mp o).state now2 = true) ∧
    (∀ (r : WxWorkApp) (now2 : Int) (te : ReqOutcome WxWorkAppTokenResp) (m : Option String)
        (o : ReqOutcome WxWorkAppMessageResp), r.accessToken = "" →
        (fireRequest r now2 te m o).refreshCalls = 1) := by
  refine ⟨fun r now te m o resp h h42 => ?_, fun r now te m o resp h h42 => ?_,
    fun r now te m o resp h h42 => ?_, fun r now te m o resp h h42 => ?_,
    fun r now te m o resp h h42 => ?_, fun r now te mp o resp h h42 => ?_,
    fun r now te mp o resp h h42 => ?_, fun r now2 te m o h => ?_⟩
  · have hne : resp.errCode ≠ WxWorkAppStatusOK := by
      rw [h42]; decide
    refine ⟨?_, ?_, fun now2 => needsRefresh_of_empty _ now2 ?_⟩ <;>
      simp [sendMessage, h, hne, h42, WxWorkCodeAccessTokenExpired, WxWorkAppStatusOK]
  · have hne : resp.errCode ≠ WxWorkAppStatusOK := by
      rw [h42]; decide
    refine ⟨?_, ?_, fun now2 => needsRefresh_of_empty _ now2 ?_⟩ <;>
      simp [CreateGroupChat, h, hne, h42, WxWorkCodeAccessTokenExpired, WxWorkAppStatusOK]
  · have hne : resp.errCode ≠ WxWorkAppStatusOK := by
      rw [h42]; decide
    refine ⟨?_, ?_, fun now2 => needsRefresh_of_empty _ now2 ?_⟩ <;>
      simp [UpdateGroupChat, h, hne, h42, WxWorkCodeAccessTokenExpired, WxWorkAppStatusOK]
  · have hne : resp.errCode ≠ WxWorkAppStatusOK := by
      rw [h42]; decide
    refine ⟨?_, ?_, fun now2 => needsRefresh_of_empty _ now2 ?_⟩ <;>
      simp [GetGroupChat, h, hne, h42, WxWorkCodeAccessTokenExpired, WxWorkAppStatusOK]
  · have hne : resp.errCode ≠ WxWorkAppStatusOK := by
      rw [h42]; decide
    refine ⟨?_, ?_, fun now2 => needsRefresh_of_empty _ now2 ?_⟩ <;>
      simp [sendGroupMessage, h, hne, h42, WxWorkCodeAccessTokenExpired, WxWorkAppStatusOK]
  · have hne : resp.errCode ≠ WxWorkAppStatusOK := by
      rw [h42]; decide
    refine ⟨?_, ?_, fun now2 => needsRefresh_of_empty _ now2 ?_⟩ <;>
      simp [UploadMedia, h, hne, h42, WxWorkCodeAccessTokenExpired, WxWorkAppStatusOK]
  · have hne : resp.errCode ≠ WxWorkAppStatusOK := by
      rw [h42]; decide
    refine ⟨?_, ?_, fun now2 => needsRefresh_of_empty _ now2 ?_⟩ <;>
      simp [UploadImage, h, hne, h42, WxWorkCodeAccessTokenExpired, WxWorkAppStatusOK]
  · rw [fireRequest_refresh_count, needsRefresh_of_empty r now2 h, if_pos rfl]

/-- C2 witness: a concrete 42001 envelope through sendMessage and through
UploadMedia, and a concrete follow-up dispatch from the emptied cache. -/
theorem c2_witness :
    (sendMessage ⟨"tok", 100⟩ 0 (.doErr "unused") none
      (.resp 200 "200 OK" (.ok ⟨42001, "access token expired", "", "", ""⟩))).state.accessToken
      = "" ∧
    (UploadMedia ⟨"tok", 100⟩ 0 (.doErr "unused") .ok
      (.resp 200 "200 OK" (.ok ⟨42001, "access token expired", "image", "m1", "7"⟩))).err =
      some ("call wxwork app upload media api error, " ++ toString (42001 : Int) ++
        " " ++ "access token expired") ∧
    (fireRequest (a := WxWorkAppMessageResp) ⟨"", 100⟩ 0 (.doErr "down") none
      (.resp 200 "200 OK" (.ok .zero))).refreshCalls = 1 :=
  ⟨(c2_sentinel_invalidation.1 ⟨"tok", 100⟩ 0 (.doErr "unused") none
      (.resp 200 "200 OK" (.ok ⟨42001, "access token expired", "", "", ""⟩))
      ⟨42001, "access token expired", "", "", ""⟩ (by rfl) (by decide)).1,
   (c2_sentinel_invalidation.2.2.2.2.2.1 ⟨"tok", 100⟩ 0 (.doErr "unused") .ok
      (.resp 200 "200 OK" (.ok ⟨42001, "access token expired", "image", "m1", "7"⟩))
      ⟨42001, "access token expired", "image", "m1", "7"⟩ (by rfl) (by decide)).2.1,
   c2_sentinel_invalidation.2.2.2.2.2.2.2 ⟨"", 100⟩ 0 (.doErr "down") none
      (.resp 200 "200 OK" (.ok .zero)) (by rfl)⟩

/-- C10: the sentinel invalidation inside sendMessage clears only the
token string and leaves the recorded expiry unchanged; and since the
acquisition check tests emptiness before expiry, an empty token forces a
refresh at every instant, even when the stale expiry lies in the future. -/
theorem c10_invalidation_partial_frame :
    (∀ (r : WxWorkApp) (now : Int) (te : ReqOutcome WxWorkAppTokenResp) (m : Option String)
        (o : ReqOutcome WxWorkAppMessageResp) (resp : WxWorkAppMessageResp),
        needsRefresh r now = false →
        (fireRequest r now te m o).result = .ok resp →
        resp.errCode = WxWorkCodeAccessTokenExpired →
        (sendMessage r now te m o).state = ⟨"", r.expiredAt⟩) ∧
    (∀ (r : WxWorkApp) (now2 : Int), r.accessToken = "" →
        needsRefresh r now2 = true) ∧
    (∀ (r : WxWorkApp) (now2 : Int), r.accessToken = "" → now2 ≤ r.expiredAt →
        IsAccessTokenExpired r now2 = false ∧ needsRefresh r now2 = true) := by
  refine ⟨fun r now te m o resp hu h h42 => ?_, fun r now2 h => needsRefresh_of_empty r now2 h,
    fun r now2 h hle => ⟨?_, needsRefresh_of_empty r now2 h⟩⟩
  · have hne : resp.errCode ≠ WxWorkAppStatusOK := by
      rw [h42]; decide
    have hst : (fireRequest r now te m o).state = r := fireRequest_usable_state r now te m o hu
    simp [sendMessage, h, hne, h42, hst, WxWorkCodeAccessTokenExpired, WxWorkAppStatusOK]
  · simp [IsAccessTokenExpired, not_lt.mpr hle]

/-- C10 witness: a concrete sentinel response clears the token but keeps
the future expiry 100, and the resulting state still refreshes at instant
0 although the stale expiry is not yet reached. -/
theorem c10_witness :
    (sendMessage ⟨"tok", 100⟩ 0 (.doErr "unused") none
      (.resp 200 "200 OK" (.ok ⟨42001, "expired", "", "", ""⟩))).state = ⟨"", 100⟩ ∧
    needsRefresh ⟨"", 100⟩ 0 = true ∧
    IsAccessTokenExpired ⟨"", 100⟩ 0 = false :=
  ⟨c10_invalidation_partial_frame.1 ⟨"tok", 100⟩ 0 (.doErr "unused") none
      (.resp 200 "200 OK" (.ok ⟨42001, "expired", "", "", ""⟩))
      ⟨42001, "expired", "", "", ""⟩ (by decide) (by rfl) (by decide),
   c10_invalidation_partial_frame.2.1 ⟨"", 100⟩ 0 rfl,
   (c10_invalidation_partial_frame.2.2 ⟨"", 100⟩ 0 rfl (by decide)).1⟩

/-- C9 counterexample: the two failures the claim names are silently
swallowed.  With a usable token, UploadMedia on a success envelope whose
created_at field "abc" does not parse returns createdAt 0 and a nil
error (strconvParseInt64 reports the parse failure, line 820 discards it);
and fireRequest returns an ok result untouched by a json.Marshal failure
of the request body (line 938 discards it). -/
theorem c9_counterexample :
    UploadMedia ⟨"tok", 100⟩ 0 (.doErr "unused") .ok
      (.resp 200 "200 OK" (.ok ⟨0, "ok", "image", "m1", "abc"⟩)) =
      ⟨⟨"tok", 100⟩, 0, "m1", 0, none⟩ ∧
    (strconvParseInt64 "abc").2 = true ∧
    fireRequest (a := WxWorkAppMessageResp) ⟨"tok", 100⟩ 0 (.doErr "unused")
      (some "json marshal failure") (.resp 200 "200 OK" (.ok .zero)) =
      ⟨⟨"tok", 100⟩, 0, .ok .zero⟩ := by
  exact ⟨rfl, by decide, rfl⟩

/-- C9 (amended): failures of request construction, the network call, the
HTTP status, response-body parsing, multipart construction, and the token
refresh are each returned to the immediate caller with a stage-identifying
message; the two exceptions are the JSON request-body serialization in
fireRequest, whose outcome never affects the call, and the created_at
parse in UploadMedia, which yields the value component of ParseInt (0 on a
syntax error) with a nil error. -/
theorem c9_error_propagation :
    (∀ (a : Type) (r : WxWorkApp) (now : Int) (te : ReqOutcome WxWorkAppTokenResp)
        (m : Option String) (s : String), needsRefresh r now = false →
        (fireRequest (a := a) r now te m (.newReqErr s)).result =
          .error ("create request error, " ++ s)) ∧
    (∀ (a : Type) (r : WxWorkApp) (now : Int) (te : ReqOutcome WxWorkAppTokenResp)
        (m : Option String) (s : String), needsRefresh r now = false →
        (fireRequest (a := a) r now te m (.doErr s)).result =
          .error ("get response error, " ++ s)) ∧
    (∀ (a : Type) (r : WxWorkApp) (now : Int) (te : ReqOutcome WxWorkAppTokenResp)
        (m : Option String) (st : Nat) (stext : String) (dec : Except String a),
        needsRefresh r now = false → st ≠ 200 →
        (fireRequest r now te m (.resp st stext dec)).result =
          .error ("wxwork request error, " ++ stext)) ∧
    (∀ (a : Type) (r : WxWorkApp) (now : Int) (te : ReqOutcome WxWorkAppTokenResp)
        (m : Option String) (stext pm : String), needsRefresh r now = false →
        (fireRequest r now te m
          (.resp 200 stext (Except.error pm : Except String a))).result =
          .error ("parse response error, " ++ pm)) ∧
    (∀ (a : Type) (r r2 : WxWorkApp) (now : Int) (te : ReqOutcome WxWorkAppTokenResp)
        (m : Option String) (o : ReqOutcome a) (e : String),
        needsRefresh r now = true → refreshAccessToken r now te = (r2, some e) →
        (fireRequest r now te m o).result =
          .error ("refresh access token error, " ++ e)) ∧
    (∀ (a : Type) (r : WxWorkApp) (now : Int) (te : ReqOutcome WxWorkAppTokenResp)
        (o : ReqOutcome a) (s : String), needsRefresh r now = false →
        (uploadFile r now te (.createErr s) o).result =
          .error ("create form file error, " ++ s) ∧
        (uploadFile r now te (.writeErr s) o).result =
          .error ("write form file error, " ++ s) ∧
        (uploadFile r now te (.closeErr s) o).result =
          .error ("close form file error, " ++ s)) ∧
    (∀ (a : Type) (r : WxWorkApp) (now : Int) (te : ReqOutcome WxWorkAppTokenResp)
        (s : String) (o : ReqOutcome a),
        fireRequest r now te (some s) o = fireRequest r now te none o) ∧
    (∀ (r : WxWorkApp) (now : Int) (te : ReqOutcome WxWorkAppTokenResp)
        (mp : MultipartOutcome) (o : ReqOutcome WxWorkAppUploadMediaResp)
        (resp : WxWorkAppUploadMediaResp),
        (uploadFile r now te mp o).result = .ok resp →
        resp.errCode = WxWorkAppStatusOK →
        UploadMedia r now te mp o =
          ⟨(uploadFile r now te mp o).state, (uploadFile r now te mp o).refreshCalls,
            resp.mediaID, (strconvParseInt64 resp.createdAt).1, none⟩) := by
  refine ⟨fun a r now te m s h => ?_, fun a r now te m s h => ?_,
    fun a r now te m st stext dec h hs => ?_, fun a r now te m stext pm h => ?_,
    fun a r r2 now te m o e h hre => ?_, fun a r now te o s h => ?_,
    fun a r now te s o => ?_, fun r now te mp o resp h hok => ?_⟩
  · simp [fireRequest, h]
  · simp [fireRequest, h]
  · rw [fireRequest_usable_nok r now te m st stext dec h hs]
  · rw [fireRequest_usable_200 r now te m stext _ h]
  · simp [fireRequest, h, hre]
  · refine ⟨?_, ?_, ?_⟩ <;> simp [uploadFile, h]
  · by_cases h : needsRefresh r now
    · simp only [fireRequest, h, if_true]
      rcases hre : refreshAccessToken r now te with ⟨r2, err⟩
      cases err with
      | none => cases o <;> simp [hre]
      | some e => simp [hre]
    · simp only [fireRequest, h, if_false, Bool.false_eq_true]
      cases o <;> simp
  · simp [UploadMedia, h, hok]

/-- C9 witness: concrete instances of the stage-identifying messages, of
the marshal independence, and of the discarded created_at parse. -/
theorem c9_witness :
    (fireRequest (a := WxWorkAppMessageResp) ⟨"tok", 100⟩ 0 (.doErr "unused") none
      (.doErr "connection refused")).result = .error "get response error, connection refused" ∧
    (uploadFile (a := WxWorkAppUploadMediaResp) ⟨"tok", 100⟩ 0 (.doErr "unused")
      (.createErr "boom") (.resp 200 "200 OK" (.error "x"))).result =
      .error "create form file error, boom" ∧
    fireRequest (a := WxWorkAppMessageResp) ⟨"tok", 100⟩ 0 (.doErr "unused")
      (some "marshal broke") (.resp 200 "200 OK" (.ok .zero)) =
      fireRequest (a := WxWorkAppMessageResp) ⟨"tok", 100⟩ 0 (.doErr "unused") none
      (.resp 200 "200 OK" (.ok .zero)) ∧
    UploadMedia ⟨"tok", 100⟩ 0 (.doErr "unused") .ok
      (.resp 200 "200 OK" (.ok ⟨0, "ok", "image", "m2", "xyz"⟩)) =
      ⟨⟨"tok", 100⟩, 0, "m2", (strconvParseInt64 "xyz").1, none⟩ :=
  ⟨c9_error_propagation.2.1 WxWorkAppMessageResp ⟨"tok", 100⟩ 0 (.doErr "unused") none
      "connection refused" (by decide),
   (c9_error_propagation.2.2.2.2.2.1 WxWorkAppUploadMediaResp ⟨"tok", 100⟩ 0 (.doErr "unused")
      (.resp 200 "200 OK" (.error "x")) "boom" (by decide)).1,
   c9_error_propagation.2.2.2.2.2.2.1 WxWorkAppMessageResp ⟨"tok", 100⟩ 0 (.doErr "unused")
      "marshal broke" (.resp 200 "200 OK" (.ok .zero)),
   c9_error_propagation.2.2.2.2.2.2.2 ⟨"tok", 100⟩ 0 (.doErr "unused") .ok
      (.resp 200 "200 OK" (.ok ⟨0, "ok", "image", "m2", "xyz"⟩))
      ⟨0, "ok", "image", "m2", "xyz"⟩ (by rfl) (by decide)⟩

theorem sendMessage_refreshCalls (r : WxWorkApp) (now : Int)
    (te : ReqOutcome WxWorkAppTokenResp) (m : Option String)
    (o : ReqOutcome WxWorkAppMessageResp) :
    (sendMessage r now te m o).refreshCalls = (fireRequest r now te m o).refreshCalls := by
  cases hfr : (fireRequest r now te m o).result with
  | error e => simp [sendMessage, hfr]
  | ok resp =>
    by_cases hc : resp.errCode ≠ WxWorkAppStatusOK
    · simp [sendMessage, hfr, hc]
    · simp [sendMessage, hfr, hc]

theorem UploadMedia_refreshCalls (r : WxWorkApp) (now : Int)
    (te : ReqOutcome WxWorkAppTokenResp) (mp : MultipartOutcome)
    (o : ReqOutcome WxWorkAppUploadMediaResp) :
    (UploadMedia r now te mp o).refreshCalls = (uploadFile r now te mp o).refreshCalls := by
  cases hfr : (uploadFile r now te mp o).result with
  | error e => simp [UploadMedia, hfr]
  | ok resp =>
    by_cases hc : resp.errCode ≠ WxWorkAppStatusOK
    · simp [UploadMedia, hfr, hc]
    · simp [UploadMedia, hfr, hc]

/-- C8: for every sequence of dispatched requests each of which is issued
while the cached token is non-empty and unexpired, zero network calls to
the token endpoint are performed over the whole sequence; and a single
dispatch performs no token fetch exactly when the cached token is usable,
one token fetch when it is absent or expired. -/
theorem c8_no_refresh_while_usable :
    (∀ (r : WxWorkApp) (ops : List OpCall),
        usableThroughout r ops → (runOps r ops).2 = 0) ∧
    (∀ (a : Type) (r : WxWorkApp) (now : Int) (te : ReqOutcome WxWorkAppTokenResp)
        (m : Option String) (o : ReqOutcome a),
        needsRefresh r now = false → (fireRequest r now te m o).refreshCalls = 0) ∧
    (∀ (a : Type) (r : WxWorkApp) (now : Int) (te : ReqOutcome WxWorkAppTokenResp)
        (mp : MultipartOutcome) (o : ReqOutcome a),
        needsRefresh r now = false → (uploadFile r now te mp o).refreshCalls = 0) ∧
    (∀ (a : Type) (r : WxWorkApp) (now : Int) (te : ReqOutcome WxWorkAppTokenResp)
        (m : Option String) (o : ReqOutcome a),
        needsRefresh r now = true → (fireRequest r now te m o).refreshCalls = 1) ∧
    (∀ (a : Type) (r : WxWorkApp) (now : Int) (te : ReqOutcome WxWorkAppTokenResp)
        (mp : MultipartOutcome) (o : ReqOutcome a),
        needsRefresh r now = true → (uploadFile r now te mp o).refreshCalls = 1) := by
  refine ⟨fun r ops h => ?_, fun a r now te m o h => ?_, fun a r now te mp o h => ?_,
    fun a r now te m o h => ?_, fun a r now te mp o h => ?_⟩
  · induction ops generalizing r with
    | nil => rfl
    | cons c cs ih =>
      obtain ⟨h1, h2⟩ := h
      have hc : (c.exec r).2 = 0 := by
        cases c with
        | msg now te m o =>
          simp only [OpCall.now] at h1
          simp only [OpCall.exec, sendMessage_refreshCalls, fireRequest_refresh_count, h1,
            if_false, Bool.false_eq_true]
        | media now te mp o =>
          simp only [OpCall.now] at h1
          simp only [OpCall.exec, UploadMedia_refreshCalls, uploadFile_refresh_count, h1,
            if_false, Bool.false_eq_true]
      simp only [runOps, hc, Nat.zero_add]
      exact ih (c.exec r).1 h2
  · rw [fireRequest_refresh_count, h]; rfl
  · rw [uploadFile_refresh_count, h]; rfl
  · rw [fireRequest_refresh_count, h]; rfl
  · rw [uploadFile_refresh_count, h]; rfl

/-- C8 witness: the spec scenario — a token valid until instant 10, two
message sends at instants 3 and 6, zero token fetches in total, and a
single dispatch from an expired state performing one fetch. -/
theorem c8_witness :
    (runOps ⟨"abc", 10⟩
      [.msg 3 (.doErr "unused") none (.resp 200 "200 OK" (.ok .zero)),
       .msg 6 (.doErr "unused") none (.resp 200 "200 OK" (.ok .zero))]).2 = 0 ∧
    (fireRequest (a := WxWorkAppMessageResp) ⟨"abc", 10⟩ 11 (.doErr "down") none
      (.resp 200 "200 OK" (.ok .zero))).refreshCalls = 1 :=
  ⟨c8_no_refresh_while_usable.1 ⟨"abc", 10⟩
      [.msg 3 (.doErr "unused") none (.resp 200 "200 OK" (.ok .zero)),
       .msg 6 (.doErr "unused") none (.resp 200 "200 OK" (.ok .zero))]
      ⟨by decide, by decide, trivial⟩,
   c8_no_refresh_while_usable.2.2.2.1 WxWorkAppMessageResp ⟨"abc", 10⟩ 11 (.doErr "down")
      none (.resp 200 "200 OK" (.ok .zero)) (by decide)⟩

@[simp]
theorem AcqSystem.setThread_threads (s : AcqSystem) (i : Nat) (t : AcqThread) (j : Nat) :
    (s.setThread i t).threads j = if j = i then t else s.threads j := rfl

@[simp]
theorem AcqSystem.setThread_token (s : AcqSystem) (i : Nat) (t : AcqThread) :
    (s.setThread i t).token = s.token := rfl

@[simp]
theorem AcqSystem.setThread_expiredAt (s : AcqSystem) (i : Nat) (t : AcqThread) :
    (s.setThread i t).expiredAt = s.expiredAt := rfl

@[simp]
theorem AcqSystem.setThread_lockHolder (s : AcqSystem) (i : Nat) (t : AcqThread) :
    (s.setThread i t).lockHolder = s.lockHolder := rfl

@[simp]
theorem AcqSystem.setThread_refreshCalls (s : AcqSystem) (i : Nat) (t : AcqThread) :
    (s.setThread i t).refreshCalls = s.refreshCalls := rfl

theorem needsRefresh_false_iff (r : WxWorkApp) (now : Int) :
    needsRefresh r now = false ↔ r.accessToken ≠ "" ∧ now ≤ r.expiredAt := by
  simp [needsRefresh, IsAccessTokenExpired, not_lt]

theorem needsRefresh_empty_token (e now : Int) :
    needsRefresh ⟨"", e⟩ now = true := by
  simp [needsRefresh]

/-- Invariant of the interleaved double-checked acquisition when the
refresh succeeds: at most one refresh has happened, the token is empty
before it and the fresh token after it, the lock holder is exactly the
thread between its inner check and its unlock, every thread past the
exclusive section sees the fresh token, and every finished thread read the
fresh token. -/
def acqInv (now : Int) (ftok : String) (fexp : Int) (s : AcqSystem) : Prop :=
  ((s.token = "" ∧ s.refreshCalls = 0) ∨
    (s.token = ftok ∧ s.refreshCalls = 1 ∧ s.expiredAt = now + fexp)) ∧
  (∀ i, (s.threads i).failed = false) ∧
  (∀ i, s.lockHolder = some i → ((s.threads i).pc = 2 ∨ (s.threads i).pc = 3)) ∧
  (∀ i, ((s.threads i).pc = 2 ∨ (s.threads i).pc = 3) → s.lockHolder = some i) ∧
  (∀ i, 3 ≤ (s.threads i).pc → s.token = ftok) ∧
  (∀ i, (s.threads i).pc = 5 → (s.threads i).result = some ftok)

/-- Invariant of the interleaved acquisition when every refresh attempt
fails: the token stays empty, each thread that ran the refresh carries the
failure out of the exclusive section, no thread ever reaches the token
read, and no thread ever obtains a token. -/
def acqFailInv (s : AcqSystem) : Prop :=
  s.token = "" ∧
  (∀ i, s.lockHolder = some i → ((s.threads i).pc = 2 ∨ (s.threads i).pc = 3)) ∧
  (∀ i, ((s.threads i).pc = 2 ∨ (s.threads i).pc = 3) → s.lockHolder = some i) ∧
  (∀ i, (s.threads i).pc = 3 → (s.threads i).failed = true) ∧
  (∀ i, (s.threads i).pc ≠ 4) ∧
  (∀ i, (s.threads i).result = none)

theorem acqInv_step (now : Int) (ftok : String) (fexp : Int)
    (hftok : ftok ≠ "") (hfexp : 0 ≤ fexp) (s : AcqSystem) (i : Nat)
    (h : acqInv now ftok fexp s) :
    acqInv now ftok fexp (acqStep now true ftok fexp s i) := by
  obtain ⟨hD, hF, hHold, hIn, hT, hR⟩ := h
  by_cases h0 : (s.threads i).pc = 0
  · by_cases hn : needsRefresh ⟨s.token, s.expiredAt⟩ now = true
    · -- outer check finds the token unusable: move to the lock acquisition
      unfold acqStep
      rw [if_pos h0, if_pos hn]
      refine ⟨hD, ?_, ?_, ?_, ?_, ?_⟩
      · intro j; by_cases hj : j = i
        · subst hj; simpa using hF j
        · simpa [hj] using hF j
      · intro j hsome
        have hj23 := hHold j hsome
        by_cases hj : j = i
        · subst hj; rcases hj23 with h2 | h3 <;> omega
        · simpa [hj] using hj23
      · intro j hj23
        by_cases hj : j = i
        · subst hj; simp at hj23
        · simp [hj] at hj23; exact hIn j hj23
      · intro j hge
        by_cases hj : j = i
        · subst hj; simp at hge
        · simp [hj] at hge; exact hT j hge
      · intro j h5
        by_cases hj : j = i
        · subst hj; simp at h5
        · simp [hj] at h5; simpa [hj] using hR j h5
    · -- outer check finds the token usable: jump to the token read
      have hnf : needsRefresh ⟨s.token, s.expiredAt⟩ now = false := by
        simpa using hn
      have hne : s.token ≠ "" := ((needsRefresh_false_iff _ _).mp hnf).1
      have htok : s.token = ftok := by
        rcases hD with ⟨h1, _⟩ | ⟨h1, _, _⟩
        · exact absurd h1 hne
        · exact h1
      unfold acqStep
      rw [if_pos h0, if_neg (by simp [hnf])]
      refine ⟨hD, ?_, ?_, ?_, ?_, ?_⟩
      · intro j; by_cases hj : j = i
        · subst hj; simpa using hF j
        · simpa [hj] using hF j
      · intro j hsome
        have hj23 := hHold j hsome
        by_cases hj : j = i
        · subst hj; rcases hj23 with h2 | h3 <;> omega
        · simpa [hj] using hj23
      · intro j hj23
        by_cases hj : j = i
        · subst hj; simp at hj23
        · simp [hj] at hj23; exact hIn j hj23
      · intro j hge
        exact htok
      · intro j h5
        by_cases hj : j = i
        · subst hj; simp at h5
        · simp [hj] at h5; simpa [hj] using hR j h5
  · by_cases h1 : (s.threads i).pc = 1
    · unfold acqStep
      rw [if_neg h0, if_pos h1]
      cases hlock : s.lockHolder with
      | none =>
        refine ⟨hD, ?_, ?_, ?_, ?_, ?_⟩
        · intro j; by_cases hj : j = i
          · subst hj; simpa using hF j
          · simpa [hj] using hF j
        · intro j hsome
          have hij : i = j := Option.some.inj hsome
          subst hij; simp
        · intro j hj23
          by_cases hj : j = i
          · subst hj; rfl
          · simp [hj] at hj23
            have hsj := hIn j hj23
            rw [hlock] at hsj
            exact absurd hsj (by simp)
        · intro j hge
          by_cases hj : j = i
          · subst hj; simp at hge
          · simp [hj] at hge; exact hT j hge
        · intro j h5
          by_cases hj : j = i
          · subst hj; simp at h5
          · simp [hj] at h5; simpa [hj] using hR j h5
      | some k => exact ⟨hD, hF, hHold, hIn, hT, hR⟩
    · by_cases h2 : (s.threads i).pc = 2
      · have hsomei : s.lockHolder = some i := hIn i (Or.inl h2)
        by_cases hn : needsRefresh ⟨s.token, s.expiredAt⟩ now = true
        · -- inner check still unusable: perform the refresh (success case)
          have htok0 : s.token = "" := by
            rcases hD with ⟨ht1, _⟩ | ⟨ht1, _, he1⟩
            · exact ht1
            · exfalso
              have : needsRefresh ⟨s.token, s.expiredAt⟩ now = false := by
                rw [needsRefresh_false_iff]
                refine ⟨by simpa [ht1] using hftok, ?_⟩
                simp only [he1]
                omega
              rw [this] at hn; cases hn
          have hrc0 : s.refreshCalls = 0 := by
            rcases hD with ⟨_, hr1⟩ | ⟨ht1, _, _⟩
            · exact hr1
            · rw [ht1] at htok0; exact absurd htok0 hftok
          unfold acqStep
          rw [if_neg h0, if_neg h1, if_pos h2, if_pos hn, if_pos rfl]
          refine ⟨Or.inr ⟨rfl, by simp [hrc0], rfl⟩, ?_, ?_, ?_, ?_, ?_⟩
          · intro j; by_cases hj : j = i
            · subst hj; simpa using hF j
            · simpa [hj] using hF j
          · intro j hsome
            by_cases hj : j = i
            · subst hj; simp
            · simp [hsomei] at hsome
              exact absurd hsome.symm hj
          · intro j hj23
            by_cases hj : j = i
            · subst hj; exact hsomei
            · simp [hj] at hj23; exact hIn j hj23
          · intro j hge; rfl
          · intro j h5
            by_cases hj : j = i
            · subst hj; simp at h5
            · simp [hj] at h5; simpa [hj] using hR j h5
        · -- inner check finds the token already refreshed: skip the refresh
          have hnf : needsRefresh ⟨s.token, s.expiredAt⟩ now = false := by
            simpa using hn
          have hne : s.token ≠ "" := ((needsRefresh_false_iff _ _).mp hnf).1
          have htok : s.token = ftok := by
            rcases hD with ⟨ht1, _⟩ | ⟨ht1, _, _⟩
            · exact absurd ht1 hne
            · exact ht1
          unfold acqStep
          rw [if_neg h0, if_neg h1, if_pos h2, if_neg (by simp [hnf])]
          refine ⟨hD, ?_, ?_, ?_, ?_, ?_⟩
          · intro j; by_cases hj : j = i
            · subst hj; simpa using hF j
            · simpa [hj] using hF j
          · intro j hsome
            by_cases hj : j = i
            · subst hj; simp
            · simp [hsomei] at hsome
              exact absurd hsome.symm hj
          · intro j hj23
            by_cases hj : j = i
            · subst hj; exact hsomei
            · simp [hj] at hj23; exact hIn j hj23
          · intro j hge; exact htok
          · intro j h5
            by_cases hj : j = i
            · subst hj; simp at h5
            · simp [hj] at h5; simpa [hj] using hR j h5
      · by_cases h3 : (s.threads i).pc = 3
        · have hfail : (s.threads i).failed = false := hF i
          have htok : s.token = ftok := hT i (by omega)
          unfold acqStep
          rw [if_neg h0, if_neg h1, if_neg h2, if_pos h3, if_neg (by simp [hfail])]
          refine ⟨hD, ?_, ?_, ?_, ?_, ?_⟩
          · intro j; by_cases hj : j = i
            · subst hj; simpa using hF j
            · simpa [hj] using hF j
          · intro j hsome
            exact absurd hsome (by simp)
          · intro j hj23
            by_cases hj : j = i
            · subst hj; simp at hj23
            · simp [hj] at hj23
              have hsj := hIn j hj23
              have hsi := hIn i (Or.inr h3)
              rw [hsi] at hsj
              exact absurd (Option.some.inj hsj).symm hj
          · intro j hge; exact htok
          · intro j h5
            by_cases hj : j = i
            · subst hj; simp at h5
            · simp [hj] at h5; simpa [hj] using hR j h5
        · by_cases h4 : (s.threads i).pc = 4
          · have htok : s.token = ftok := hT i (by omega)
            unfold acqStep
            rw [if_neg h0, if_neg h1, if_neg h2, if_neg h3, if_pos h4]
            refine ⟨hD, ?_, ?_, ?_, ?_, ?_⟩
            · intro j; by_cases hj : j = i
              · subst hj; simpa using hF j
              · simpa [hj] using hF j
            · intro j hsome
              have hj23 := hHold j hsome
              by_cases hj : j = i
              · subst hj; rcases hj23 with hx | hx <;> omega
              · simpa [hj] using hj23
            · intro j hj23
              by_cases hj : j = i
              · subst hj; simp at hj23
              · simp [hj] at hj23; exact hIn j hj23
            · intro j hge; exact htok
            · intro j h5
              by_cases hj : j = i
              · subst hj; simp [htok]
              · simp [hj] at h5; simpa [hj] using hR j h5
          · unfold acqStep
            rw [if_neg h0, if_neg h1, if_neg h2, if_neg h3, if_neg h4]
            exact ⟨hD, hF, hHold, hIn, hT, hR⟩

theorem acqFailInv_step (now : Int) (ftok : String) (fexp : Int) (s : AcqSystem) (i : Nat)
    (h : acqFailInv s) : acqFailInv (acqStep now false ftok fexp s i) := by
  obtain ⟨hTok, hHold, hIn, hFl, hNo4, hRes⟩ := h
  have hn : needsRefresh ⟨s.token, s.expiredAt⟩ now = true := by
    rw [hTok]; exact needsRefresh_empty_token _ _
  by_cases h0 : (s.threads i).pc = 0
  · unfold acqStep
    rw [if_pos h0, if_pos hn]
    refine ⟨hTok, ?_, ?_, ?_, ?_, ?_⟩
    · intro j hsome
      have hj23 := hHold j hsome
      by_cases hj : j = i
      · subst hj; rcases hj23 with hx | hx <;> omega
      · simpa [hj] using hj23
    · intro j hj23
      by_cases hj : j = i
      · subst hj; simp at hj23
      · simp [hj] at hj23; exact hIn j hj23
    · intro j hq
      by_cases hj : j = i
      · subst hj; simp at hq
      · simp [hj] at hq; simpa [hj] using hFl j hq
    · intro j
      by_cases hj : j = i
      · subst hj; simp
      · simp [hj]; exact hNo4 j
    · intro j
      by_cases hj : j = i
      · subst hj; simpa using hRes j
      · simpa [hj] using hRes j
  · by_cases h1 : (s.threads i).pc = 1
    · unfold acqStep
      rw [if_neg h0, if_pos h1]
      cases hlock : s.lockHolder with
      | none =>
        refine ⟨hTok, ?_, ?_, ?_, ?_, ?_⟩
        · intro j hsome
          have hij : i = j := by simpa using hsome
          subst hij; simp
        · intro j hj23
          by_cases hj : j = i
          · subst hj; rfl
          · simp [hj] at hj23
            have hsj := hIn j hj23
            rw [hlock] at hsj
            exact absurd hsj (by simp)
        · intro j hq
          by_cases hj : j = i
          · subst hj; simp at hq
          · simp [hj] at hq; simpa [hj] using hFl j hq
        · intro j
          by_cases hj : j = i
          · subst hj; simp
          · simp [hj]; exact hNo4 j
        · intro j
          by_cases hj : j = i
          · subst hj; simpa using hRes j
          · simpa [hj] using hRes j
      | some k => exact ⟨hTok, hHold, hIn, hFl, hNo4, hRes⟩
    · by_cases h2 : (s.threads i).pc = 2
      · have hsomei : s.lockHolder = some i := hIn i (Or.inl h2)
        unfold acqStep
        rw [if_neg h0, if_neg h1, if_pos h2, if_pos hn, if_neg (by simp)]
        refine ⟨hTok, ?_, ?_, ?_, ?_, ?_⟩
        · intro j hsome
          simp [hsomei] at hsome
          subst hsome; simp
        · intro j hj23
          by_cases hj : j = i
          · subst hj; exact hsomei
          · simp [hj] at hj23; exact hIn j hj23
        · intro j hq
          by_cases hj : j = i
          · subst hj; simp
          · simp [hj] at hq; simpa [hj] using hFl j hq
        · intro j
          by_cases hj : j = i
          · subst hj; simp
          · simp [hj]; exact hNo4 j
        · intro j
          by_cases hj : j = i
          · subst hj; simpa using hRes j
          · simpa [hj] using hRes j
      · by_cases h3 : (s.threads i).pc = 3
        · have hfl : (s.threads i).failed = true := hFl i h3
          unfold acqStep
          rw [if_neg h0, if_neg h1, if_neg h2, if_pos h3, if_pos hfl]
          refine ⟨hTok, ?_, ?_, ?_, ?_, ?_⟩
          · intro j hsome
            exact absurd hsome (by simp)
          · intro j hj23
            by_cases hj : j = i
            · subst hj; simp at hj23
            · simp [hj] at hj23
              have hsj := hIn j hj23
              have hsi := hIn i (Or.inr h3)
              rw [hsi] at hsj
              exact absurd (Option.some.inj hsj).symm hj
          · intro j hq
            by_cases hj : j = i
            · subst hj; simp at hq
            · simp [hj] at hq; simpa [hj] using hFl j hq
          · intro j
            by_cases hj : j = i
            · subst hj; simp
            · simp [hj]; exact hNo4 j
          · intro j
            by_cases hj : j = i
            · subst hj; simpa using hRes j
            · simpa [hj] using hRes j
        · by_cases h4 : (s.threads i).pc = 4
          · exact absurd h4 (hNo4 i)
          · unfold acqStep
            rw [if_neg h0, if_neg h1, if_neg h2, if_neg h3, if_neg h4]
            exact ⟨hTok, hHold, hIn, hFl, hNo4, hRes⟩

theorem acqInv_run (now : Int) (ftok : String) (fexp : Int)
    (hftok : ftok ≠ "") (hfexp : 0 ≤ fexp) (s : AcqSystem) (sched : List Nat)
    (h : acqInv now ftok fexp s) :
    acqInv now ftok fexp (acqRun now true ftok fexp s sched) := by
  induction sched generalizing s with
  | nil => exact h
  | cons i rest ih => exact ih _ (acqInv_step now ftok fexp hftok hfexp s i h)

theorem acqFailInv_run (now : Int) (ftok : String) (fexp : Int)
    (s : AcqSystem) (sched : List Nat) (h : acqFailInv s) :
    acqFailInv (acqRun now false ftok fexp s sched) := by
  induction sched generalizing s with
  | nil => exact h
  | cons i rest ih => exact ih _ (acqFailInv_step now ftok fexp s i h)

theorem acqInit_inv (now : Int) (ftok : String) (fexp e : Int) :
    acqInv now ftok fexp (acqInit e) := by
  refine ⟨Or.inl ⟨rfl, rfl⟩, fun i => rfl, fun i hsome => ?_, fun i hx => ?_,
    fun i hx => ?_, fun i hx => ?_⟩
  · exact absurd hsome (by simp [acqInit])
  · rcases hx with hx | hx <;> simp [acqInit] at hx
  · simp [acqInit] at hx
  · simp [acqInit] at hx

theorem acqInit_failInv (e : Int) : acqFailInv (acqInit e) := by
  refine ⟨rfl, fun i hsome => ?_, fun i hx => ?_, fun i hx => ?_, fun i => ?_, fun i => rfl⟩
  · exact absurd hsome (by simp [acqInit])
  · rcases hx with hx | hx <;> simp [acqInit] at hx
  · simp [acqInit] at hx
  · simp [acqInit]

/-- C3 counterexample: with a failing refresh, two callers that start
while the token is absent and run to completion under the interleaving
[0,0,0,0,1,1,1,1] each perform their own refresh network call — two in
total, not exactly one — because a failed refresh leaves the token empty
and the second caller re-checks and retries inside the exclusive
section. -/
theorem c3_counterexample :
    (acqRun 0 false "tok" 7200 (acqInit 0) [0, 0, 0, 0, 1, 1, 1, 1]).refreshCalls = 2 ∧
    ((acqRun 0 false "tok" 7200 (acqInit 0) [0, 0, 0, 0, 1, 1, 1, 1]).threads 0).pc = 5 ∧
    ((acqRun 0 false "tok" 7200 (acqInit 0) [0, 0, 0, 0, 1, 1, 1, 1]).threads 1).pc = 5 := by
  refine ⟨rfl, rfl, rfl⟩

/-- C3 (amended): for every sequentially consistent interleaving of any
number of concurrent token acquisitions (the check-lock-recheck-refresh-
unlock-read structure of fireRequest and uploadFile) started while the
cached token is absent: when the refresh succeeds, at most one refresh
network call occurs in total — exactly one by the time any caller
completes — and every completed caller reads that same fresh token; when
the refresh fails, the token stays empty and no caller obtains a token
(each caller that enters the exclusive section performs its own failing
refresh call, so several refresh calls may occur). -/
theorem c3_refresh_interleaving :
    (∀ (e : Int) (ftok : String) (fexp now : Int) (sched : List Nat),
        ftok ≠ "" → 0 ≤ fexp →
        (acqRun now true ftok fexp (acqInit e) sched).refreshCalls ≤ 1 ∧
        (∀ i, ((acqRun now true ftok fexp (acqInit e) sched).threads i).pc = 5 →
          ((acqRun now true ftok fexp (acqInit e) sched).threads i).result = some ftok ∧
          (acqRun now true ftok fexp (acqInit e) sched).refreshCalls = 1)) ∧
    (∀ (e : Int) (ftok : String) (fexp now : Int) (sched : List Nat) (i : Nat),
        (acqRun now false ftok fexp (acqInit e) sched).token = "" ∧
        ((acqRun now false ftok fexp (acqInit e) sched).threads i).result = none) := by
  constructor
  · intro e ftok fexp now sched hftok hfexp
    obtain ⟨hD, hF, hHold, hIn, hT, hR⟩ :=
      acqInv_run now ftok fexp hftok hfexp (acqInit e) sched (acqInit_inv now ftok fexp e)
    constructor
    · rcases hD with ⟨_, hr⟩ | ⟨_, hr, _⟩ <;> omega
    · intro i h5
      refine ⟨hR i h5, ?_⟩
      have htok := hT i (by omega)
      rcases hD with ⟨ht, hr⟩ | ⟨_, hr, _⟩
      · rw [ht] at htok; exact absurd htok.symm hftok
      · exact hr
  · intro e ftok fexp now sched i
    obtain ⟨hTok, _, _, _, _, hRes⟩ :=
      acqFailInv_run now ftok fexp (acqInit e) sched (acqInit_failInv e)
    exact ⟨hTok, hRes i⟩

/-- C3 witness: a concrete two-caller interleaving with a succeeding
refresh — the second caller passes its inner re-check without refreshing;
one refresh call in total and both callers read the fresh token. -/
theorem c3_witness :
    (acqRun 0 true "tok" 7200 (acqInit 0) [0, 1, 0, 0, 0, 0, 1, 1, 1, 1]).refreshCalls = 1 ∧
    ((acqRun 0 true "tok" 7200 (acqInit 0) [0, 1, 0, 0, 0, 0, 1, 1, 1, 1]).threads 0).result
      = some "tok" ∧
    ((acqRun 0 true "tok" 7200 (acqInit 0) [0, 1, 0, 0, 0, 0, 1, 1, 1, 1]).threads 1).result
      = some "tok" :=
  ⟨((c3_refresh_interleaving.1 0 "tok" 7200 0 [0, 1, 0, 0, 0, 0, 1, 1, 1, 1]
      (by decide) (by decide)).2 0 (by decide)).2,
   ((c3_refresh_interleaving.1 0 "tok" 7200 0 [0, 1, 0, 0, 0, 0, 1, 1, 1, 1]
      (by decide) (by decide)).2 0 (by decide)).1,
   ((c3_refresh_interleaving.1 0 "tok" 7200 0 [0, 1, 0, 0, 0, 0, 1, 1, 1, 1]
      (by decide) (by decide)).2 1 (by decide)).1⟩

end ChatApi

